import Mathlib

/-!
Shallow embedding of the `go-sqs-poller` worker package (Go, two files:
`worker.go` and `worker/v5/util.go`) together with proofs about its
poll–dispatch–acknowledge loop, construction defaults and queue-URL
resolution.

Modelling conventions:
* Go `*string` fields of SQS messages become `Option String`;
  `aws.ToString` maps `none` to `""` as the SDK does for nil pointers.
* Go `int32` config fields become `Int` (no arithmetic is performed on
  them, so the 32-bit range plays no role).
* A handler returns `Option GoError`: `none` is a nil error,
  `GoError.invalidEvent` is the `InvalidEventError` type of the source
  (recognised there by a type assertion), `GoError.other` is any other
  non-nil error.
* External effects (SQS calls and log lines) are collected as a `List
  Event` trace; the environment supplies the results of the external
  calls (`Env`, the `client` argument of `New`).
* The goroutine fan-out of `Worker.run` joins on a WaitGroup before
  returning, but the source passes every goroutine the address of the
  single shared range variable `i` (the module predates per-iteration
  range variables), so which message a goroutine observes is decided by
  a data race between its pointer read and the loop's later writes.
  `Worker.runRacy` models this with an explicit schedule: goroutine `j`
  dereferences the pointer at loop iteration `sched j` (a legal schedule
  satisfies `j ≤ sched j < N`, since the variable holds message `j` when
  goroutine `j` is launched), and the trace lists the per-goroutine
  event blocks in launch order, one of the possible interleavings.
  `Worker.run` is the race-free schedule `sched j = j`, in which every
  goroutine reads before the next overwrite; `runRacy_id_eq_run`
  relates the two.
* The unbounded `for` loop of `Worker.Start` is modelled with fuel (a
  maximal number of loop iterations to unroll); the iteration index is
  threaded so the environment can vary over time.
-/

namespace SqsPoller

/-- Result of `aws.ToString` on a Go `*string`: nil becomes the empty string. -/
def awsToString : Option String → String
  | none => ""
  | some s => s

/-- `types.Message`: the worker reads only `Body` (passed to the handler
opaquely) and `ReceiptHandle`; both are `*string` in Go. -/
structure Message where
  body : Option String
  receiptHandle : Option String
deriving DecidableEq, Repr

/-- `InvalidEventError` struct from the source. -/
structure InvalidEventError where
  event : String
  msg : String
deriving DecidableEq, Repr

/-- `InvalidEventError.Error()`: `fmt.Sprintf("[Invalid Event: %s] %s", e.event, e.msg)`. -/
def InvalidEventError.Error (e : InvalidEventError) : String :=
  "[Invalid Event: " ++ e.event ++ "] " ++ e.msg

/-- `NewInvalidEventError` constructor from the source. -/
def NewInvalidEventError (event msg : String) : InvalidEventError :=
  { event := event, msg := msg }

/-- A non-nil Go `error` as the worker distinguishes them: the type
assertion `err.(InvalidEventError)` either succeeds or does not. -/
inductive GoError where
  | invalidEvent (e : InvalidEventError)
  | other (msg : String)
deriving DecidableEq, Repr

/-- The string produced by the `Error()` method of the underlying Go error. -/
def GoError.errorString : GoError → String
  | .invalidEvent e => e.Error
  | .other msg => msg

/-- A user handler: `Handler.HandleMessage(msg *types.Message) error`.
`none` models a nil error return. -/
def Handler : Type := Message → Option GoError

/-- `HandlerFunc.HandleMessage` just applies the wrapped function. -/
def HandlerFunc.HandleMessage (f : Handler) (m : Message) : Option GoError :=
  f m

/-- `sqs.ReceiveMessageInput` as built by `Worker.Start`. -/
structure ReceiveMessageInput where
  queueUrl : String
  maxNumberOfMessages : Int
  attributeNames : List String
  waitTimeSeconds : Int
deriving DecidableEq, Repr

/-- `sqs.DeleteMessageInput` as built by `Worker.handleMessage`. -/
structure DeleteMessageInput where
  queueUrl : String
  receiptHandle : Option String
deriving DecidableEq, Repr

/-- Externally visible actions of the worker, in program order: SQS API
calls, `worker.Log` lines (debug/info/error), `log.Println` lines and
`fmt.Println` lines. -/
inductive Event where
  | getQueueUrlCall (queueName : String)
  | receiveCall (params : ReceiveMessageInput)
  | deleteCall (params : DeleteMessageInput)
  | logDebug (s : String)
  | logInfo (s : String)
  | logError (s : String)
  | logPrintln (s : String)
  | printlnStdout (s : String)
deriving DecidableEq, Repr

/-- Extract the parameters of a delete call, `none` for every other event. -/
def Event.deleteParams : Event → Option DeleteMessageInput
  | .deleteCall p => some p
  | _ => none

/-- Extract the parameters of a receive call, `none` for every other event. -/
def Event.receiveParamsOf : Event → Option ReceiveMessageInput
  | .receiveCall p => some p
  | _ => none

/-- Extract the queue name of a `GetQueueUrl` call, `none` for every other event. -/
def Event.getQueueUrlNameOf : Event → Option String
  | .getQueueUrlCall n => some n
  | _ => none

/-- `Config` struct from the source. -/
structure Config where
  MaxNumberOfMessage : Int
  QueueName : String
  QueueURL : String
  WaitTimeSecond : Int
deriving DecidableEq, Repr

/-- `Config.populateDefaultValues` from `util.go`: a zero
`MaxNumberOfMessage` becomes 10 and a zero `WaitTimeSecond` becomes 20;
nothing else is touched. -/
def Config.populateDefaultValues (config : Config) : Config :=
  let config :=
    if config.MaxNumberOfMessage = 0 then
      { config with MaxNumberOfMessage := 10 }
    else config
  let config :=
    if config.WaitTimeSecond = 0 then
      { config with WaitTimeSecond := 20 }
    else config
  config

/-- Result of the client's `GetQueueUrl` call: either an error or a
response whose `QueueUrl` field is a Go `*string`. -/
inductive GetQueueUrlResult where
  | ok (queueUrl : Option String)
  | err (e : String)
deriving DecidableEq, Repr

/-- The `GetQueueUrl` capability of the `QueueAPI` client, as a function
of the queue name. -/
def QueueAPI : Type := String → GetQueueUrlResult

/-- `getQueueURL` from `util.go`: call `client.GetQueueUrl` with the
queue name; on error print the error text and return the zero value `""`;
on success return `aws.ToString(response.QueueUrl)`.  The second
component is the trace of the call. -/
def getQueueURL (client : QueueAPI) (queueName : String) : String × List Event :=
  match client queueName with
  | .err e => ("", [Event.getQueueUrlCall queueName, Event.printlnStdout e])
  | .ok u => (awsToString u, [Event.getQueueUrlCall queueName])

/-- `Worker` struct; the logger and SQS client of the source are
capabilities supplied by the environment, so only the config is state. -/
structure Worker where
  Config : Config
deriving DecidableEq, Repr

/-- `New` from the source: apply defaults to the caller's config, resolve
the queue URL with the configured queue name and store it, and return the
worker holding that config (in Go the very same `*Config` the caller
passed in).  The second component is the trace of construction. -/
def New (client : QueueAPI) (config : Config) : Worker × List Event :=
  let config := config.populateDefaultValues
  let r := getQueueURL client config.QueueName
  ({ Config := { config with QueueURL := r.1 } }, r.2)

/-- The behaviour of `SqsClient.DeleteMessage` supplied by the
environment: `none` is a nil error. -/
def DeleteBehavior : Type := DeleteMessageInput → Option GoError

/-- `Worker.handleMessage` from the source: run the handler; an
`InvalidEventError` is logged and treated as handled, any other non-nil
error is returned at once (no delete call); otherwise a delete call is
issued for the message's receipt handle, a failed delete is returned as
the error and a successful one is logged at debug level. -/
def Worker.handleMessage (w : Worker) (dr : DeleteBehavior) (h : Handler)
    (m : Message) : Option GoError × List Event :=
  let params : DeleteMessageInput :=
    { queueUrl := w.Config.QueueURL, receiptHandle := m.receiptHandle }
  let deletePhase : List Event → Option GoError × List Event := fun pre =>
    match dr params with
    | some derr => (some derr, pre ++ [Event.deleteCall params])
    | none =>
        (none, pre ++ [Event.deleteCall params,
          Event.logDebug ("worker: deleted message from queue: " ++
            awsToString m.receiptHandle)])
  match h m with
  | some (GoError.invalidEvent e) =>
      deletePhase [Event.logError (GoError.invalidEvent e).errorString]
  | some (GoError.other s) => (some (GoError.other s), [])
  | none => deletePhase []

/-- Body of the goroutine that `Worker.run` launches for one message: run
`handleMessage` and log any non-nil error it returns. -/
def Worker.runMessage (w : Worker) (dr : DeleteBehavior) (h : Handler)
    (m : Message) : List Event :=
  match w.handleMessage dr h m with
  | (some e, tr) => tr ++ [Event.logError e.errorString]
  | (none, tr) => tr

/-- `Worker.run` from the source under the race-free schedule: log the
batch size, launch one goroutine per message and wait for all of them,
with goroutine `j` dereferencing the shared range variable before the
loop's next overwrite and hence observing message `j`.  The faithful
racy semantics is `Worker.runRacy` below; `run` is its instance at the
identity schedule (`runRacy_id_eq_run`). -/
def Worker.run (w : Worker) (dr : DeleteBehavior) (h : Handler)
    (messages : List Message) : List Event :=
  Event.logInfo ("worker: Received " ++ toString messages.length ++ " messages")
    :: (messages.map (w.runMessage dr h)).flatten

/-- `Worker.run` from the source under an arbitrary read schedule for
the shared range variable (go 1.15 range semantics): the loop writes
message `j` into the one variable `i` at iteration `j` and launches
goroutine `j` with `&i`, so goroutine `j` observes whichever batch
element the variable holds when it dereferences the pointer, at some
iteration `sched j` — a legal schedule satisfies `j ≤ sched j < N`.
Per-goroutine event blocks are listed in launch order. -/
def Worker.runRacy (w : Worker) (dr : DeleteBehavior) (h : Handler)
    (messages : List Message) (sched : Nat → Nat) : List Event :=
  Event.logInfo ("worker: Received " ++ toString messages.length ++ " messages")
    :: ((List.range messages.length).map (fun j =>
          w.runMessage dr h (messages.getD (sched j) ⟨none, none⟩))).flatten

/-- The `sqs.ReceiveMessageInput` that `Worker.Start` builds on every
iteration: resolved queue URL, configured batch size, all attribute
names, configured long-poll wait. -/
def Worker.receiveParams (w : Worker) : ReceiveMessageInput :=
  { queueUrl := w.Config.QueueURL
    maxNumberOfMessages := w.Config.MaxNumberOfMessage
    attributeNames := ["All"]
    waitTimeSeconds := w.Config.WaitTimeSecond }

/-- Result of one `SqsClient.ReceiveMessage` call. -/
inductive ReceiveResult where
  | err (e : String)
  | ok (messages : List Message)
deriving DecidableEq, Repr

/-- The environment of the poll loop, indexed by the loop iteration:
whether `ctx.Done()` is ready at the top of that iteration, what the
receive call returns in it, and how delete calls behave. -/
structure Env where
  ctxDone : Nat → Bool
  receive : Nat → ReceiveResult
  deleteResult : DeleteBehavior

/-- The `for`/`select` loop of `Worker.Start`, unrolled `fuel` times
starting at iteration `k`.  With a `default` clause a Go `select` takes
the ready channel case when there is one, so the iteration body runs
exactly when `ctx.Done()` is not ready; the receive error path does
`log.Println` and `continue`, and a non-empty batch is dispatched through
`Worker.run` before the next iteration begins. -/
def Worker.startLoop (w : Worker) (env : Env) (h : Handler) :
    Nat → Nat → List Event
  | 0, _ => []
  | fuel + 1, k =>
    if env.ctxDone k then
      [Event.logPrintln "worker: Stopping polling because a context kill signal was sent"]
    else
      Event.logDebug "worker: Start Polling" ::
      Event.receiveCall w.receiveParams ::
      match env.receive k with
      | .err e => Event.logPrintln e :: w.startLoop env h fuel (k + 1)
      | .ok msgs =>
          (if msgs.length > 0 then w.run env.deleteResult h msgs else [])
            ++ w.startLoop env h fuel (k + 1)

/-- `Worker.Start`: the loop from iteration 0. -/
def Worker.Start (w : Worker) (env : Env) (h : Handler) (fuel : Nat) : List Event :=
  w.startLoop env h fuel 0

/-! Concrete sample values used by the witness theorems. -/

/-- A config with both defaultable fields set to nonzero values. -/
def sampleConfig : Config :=
  { MaxNumberOfMessage := 3, QueueName := "my-sqs-queue",
    QueueURL := "https://queue-url", WaitTimeSecond := 5 }

/-- A config with both defaultable fields unset (zero). -/
def zeroConfig : Config :=
  { MaxNumberOfMessage := 0, QueueName := "my-sqs-queue",
    QueueURL := "", WaitTimeSecond := 0 }

/-- A config carrying a negative (hence non-zero) batch size. -/
def negConfig : Config :=
  { MaxNumberOfMessage := -1, QueueName := "q", QueueURL := "", WaitTimeSecond := 1 }

/-- A client whose `GetQueueUrl` always succeeds with a fixed URL. -/
def okClient : QueueAPI := fun _ => .ok (some "https://queue-url")

/-- A client whose `GetQueueUrl` always fails. -/
def errClient : QueueAPI := fun _ => .err "resolve failed"

/-- A worker as used inside the loop, with a resolved queue URL. -/
def sampleWorker : Worker := { Config := sampleConfig }

/-- Delete calls always succeed. -/
def deleteOk : DeleteBehavior := fun _ => none

/-- A sample message with a receipt handle. -/
def msgA : Message := { body := some "a", receiptHandle := some "rA" }

/-- A second sample message with a different receipt handle. -/
def msgB : Message := { body := some "b", receiptHandle := some "rB" }

/-- A handler that always succeeds. -/
def okHandler : Handler := fun _ => none

/-- A sample invalid-event error value. -/
def sampleInvalid : InvalidEventError := NewInvalidEventError "ev" "bad payload"

/-- A handler that always reports the invalid-event error. -/
def invalidHandler : Handler := fun _ => some (GoError.invalidEvent sampleInvalid)

/-- A handler that always fails with a generic error. -/
def failHandler : Handler := fun _ => some (GoError.other "boom")

/-- A legal read schedule on a two-message batch in which both
goroutines dereference the shared range variable only at the final loop
iteration, so both observe the last message. -/
def readLastSched : Nat → Nat := fun _ => 1

/-- An environment whose cancellation signal has already fired. -/
def doneEnv : Env :=
  { ctxDone := fun _ => true, receive := fun _ => .ok [], deleteResult := deleteOk }

/-- An environment that never cancels and whose receive calls always fail. -/
def errEnv : Env :=
  { ctxDone := fun _ => false, receive := fun _ => .err "network down",
    deleteResult := deleteOk }

/-! Claim theorems. -/

/-- C6: a zero batch size or wait time is replaced by the defaults 10 and
20 at construction, and nonzero supplied values are preserved unchanged. -/
theorem New_defaults_and_preservation (client : QueueAPI) (cfg : Config) :
    (cfg.MaxNumberOfMessage = 0 → (New client cfg).1.Config.MaxNumberOfMessage = 10) ∧
    (cfg.WaitTimeSecond = 0 → (New client cfg).1.Config.WaitTimeSecond = 20) ∧
    (cfg.MaxNumberOfMessage ≠ 0 →
      (New client cfg).1.Config.MaxNumberOfMessage = cfg.MaxNumberOfMessage) ∧
    (cfg.WaitTimeSecond ≠ 0 →
      (New client cfg).1.Config.WaitTimeSecond = cfg.WaitTimeSecond) := by
  refine ⟨fun h1 => ?_, fun h2 => ?_, fun h1 => ?_, fun h2 => ?_⟩ <;>
    simp [New, Config.populateDefaultValues] <;> split_ifs <;> simp_all

/-- Witness for C6 at a concrete zero config and a concrete nonzero config. -/
theorem New_defaults_and_preservation_witness :
    ((New okClient zeroConfig).1.Config.MaxNumberOfMessage = 10 ∧
     (New okClient zeroConfig).1.Config.WaitTimeSecond = 20) ∧
    ((New okClient sampleConfig).1.Config.MaxNumberOfMessage = 3 ∧
     (New okClient sampleConfig).1.Config.WaitTimeSecond = 5) :=
  ⟨⟨(New_defaults_and_preservation okClient zeroConfig).1 rfl,
    (New_defaults_and_preservation okClient zeroConfig).2.1 rfl⟩,
   ⟨(New_defaults_and_preservation okClient sampleConfig).2.2.1 (by decide),
    (New_defaults_and_preservation okClient sampleConfig).2.2.2 (by decide)⟩⟩

/-- C7 counterexample: a caller-supplied config with batch size −1 passes
through construction untouched (only an exact zero is defaulted), so the
constructed worker violates the claimed invariant batch size > 0. -/
theorem New_batch_size_invariant_fails :
    ¬ (0 < (New okClient negConfig).1.Config.MaxNumberOfMessage ∧
       0 ≤ (New okClient negConfig).1.Config.WaitTimeSecond) := by
  decide

/-- C7 amended: for every caller-supplied config with nonnegative batch
size and wait time, the constructed worker's config has batch size > 0
and wait time ≥ 0. -/
theorem New_config_invariant_of_nonneg (client : QueueAPI) (cfg : Config)
    (h1 : 0 ≤ cfg.MaxNumberOfMessage) (h2 : 0 ≤ cfg.WaitTimeSecond) :
    0 < (New client cfg).1.Config.MaxNumberOfMessage ∧
    0 ≤ (New client cfg).1.Config.WaitTimeSecond := by
  constructor <;> simp [New, Config.populateDefaultValues] <;> split_ifs <;>
    (try simp_all) <;> omega

/-- Witness for the amended C7 at a concrete all-zero config. -/
theorem New_config_invariant_of_nonneg_witness :
    0 < (New okClient zeroConfig).1.Config.MaxNumberOfMessage ∧
    0 ≤ (New okClient zeroConfig).1.Config.WaitTimeSecond :=
  New_config_invariant_of_nonneg okClient zeroConfig (by decide) (by decide)

/-- C8: construction issues exactly one queue-name resolution call, with
the configured queue name; a successfully returned address is stored
verbatim in the config, and on resolution failure the stored address is
the empty string and the failure is printed. -/
theorem New_resolves_queue_name_once_verbatim (client : QueueAPI) (cfg : Config) :
    (New client cfg).2.filterMap Event.getQueueUrlNameOf = [cfg.QueueName] ∧
    (∀ u, client cfg.QueueName = .ok (some u) →
      (New client cfg).1.Config.QueueURL = u) ∧
    (∀ e, client cfg.QueueName = .err e →
      (New client cfg).1.Config.QueueURL = "" ∧
      Event.printlnStdout e ∈ (New client cfg).2) := by
  have hq : (Config.populateDefaultValues cfg).QueueName = cfg.QueueName := by
    simp [Config.populateDefaultValues]; split_ifs <;> rfl
  refine ⟨?_, fun u hu => ?_, fun e he => ?_⟩ <;>
    · simp only [New, getQueueURL, hq]
      cases hcl : client cfg.QueueName <;>
        simp_all [Event.getQueueUrlNameOf, awsToString]

/-- Witness for C8 at a concrete succeeding client and a concrete failing
client. -/
theorem New_resolves_queue_name_once_verbatim_witness :
    (New okClient sampleConfig).1.Config.QueueURL = "https://queue-url" ∧
    ((New errClient sampleConfig).1.Config.QueueURL = "" ∧
      Event.printlnStdout "resolve failed" ∈ (New errClient sampleConfig).2) :=
  ⟨(New_resolves_queue_name_once_verbatim okClient sampleConfig).2.1 _ rfl,
   (New_resolves_queue_name_once_verbatim errClient sampleConfig).2.2 _ rfl⟩

/-- C10: construction writes only the batch-size, wait-time and
queue-address fields of the caller's config (defaults and the resolved
address) and leaves the queue name unchanged; the worker's config is that
same updated config (in Go, the same `*Config` the caller passed in,
modelled here by state passing). -/
theorem New_frame_writes_only_defaults_and_url (client : QueueAPI) (cfg : Config) :
    (New client cfg).1.Config.QueueName = cfg.QueueName ∧
    (New client cfg).1.Config.MaxNumberOfMessage =
      (Config.populateDefaultValues cfg).MaxNumberOfMessage ∧
    (New client cfg).1.Config.WaitTimeSecond =
      (Config.populateDefaultValues cfg).WaitTimeSecond ∧
    (New client cfg).1.Config.QueueURL = (getQueueURL client cfg.QueueName).1 := by
  have hq : (Config.populateDefaultValues cfg).QueueName = cfg.QueueName := by
    simp [Config.populateDefaultValues]; split_ifs <;> rfl
  refine ⟨?_, ?_, ?_, ?_⟩ <;> simp [New, hq]

/-- C2: when the handler returns the invalid-event error, handling the
message still issues a delete call for that message's receipt handle, and
the invalid-event outcome is logged at error level. -/
theorem handleMessage_invalid_event_still_deletes
    (w : Worker) (dr : DeleteBehavior) (h : Handler) (m : Message)
    (e : InvalidEventError) (hinv : h m = some (GoError.invalidEvent e)) :
    Event.deleteCall { queueUrl := w.Config.QueueURL, receiptHandle := m.receiptHandle }
        ∈ (w.handleMessage dr h m).2 ∧
    Event.logError (GoError.invalidEvent e).errorString ∈ (w.handleMessage dr h m).2 := by
  unfold Worker.handleMessage
  rw [hinv]
  rcases hd : dr { queueUrl := w.Config.QueueURL, receiptHandle := m.receiptHandle }
    with _ | derr <;> simp [hd]

/-- Witness for C2 at a concrete worker, message and invalid-event handler. -/
theorem handleMessage_invalid_event_still_deletes_witness :
    Event.deleteCall { queueUrl := sampleWorker.Config.QueueURL,
                       receiptHandle := msgA.receiptHandle }
      ∈ (sampleWorker.handleMessage deleteOk invalidHandler msgA).2 ∧
    Event.logError (GoError.invalidEvent sampleInvalid).errorString
      ∈ (sampleWorker.handleMessage deleteOk invalidHandler msgA).2 :=
  handleMessage_invalid_event_still_deletes sampleWorker deleteOk invalidHandler
    msgA sampleInvalid rfl

/-- C3: when the handler fails on the message it is handling with an
error other than invalid-event, `handleMessage` returns that error at
once with an empty trace — in particular it issues no delete call — and
the goroutine body surfaces the error as exactly one error-level log
entry, its only effect: no error channel from dispatch back to the poll
loop exists. -/
theorem handleMessage_generic_error_no_delete
    (w : Worker) (dr : DeleteBehavior) (h : Handler) (m : Message) (s : String)
    (hf : h m = some (GoError.other s)) :
    w.handleMessage dr h m = (some (GoError.other s), []) ∧
    w.runMessage dr h m = [Event.logError s] := by
  have h1 : w.handleMessage dr h m = (some (GoError.other s), []) := by
    unfold Worker.handleMessage
    rw [hf]
  have h2 : w.runMessage dr h m = [Event.logError s] := by
    unfold Worker.runMessage
    rw [h1]
    rfl
  exact ⟨h1, h2⟩

/-- Witness for C3 at a concrete worker, message and failing handler. -/
theorem handleMessage_generic_error_no_delete_witness :
    sampleWorker.handleMessage deleteOk failHandler msgA
        = (some (GoError.other "boom"), []) ∧
    sampleWorker.runMessage deleteOk failHandler msgA = [Event.logError "boom"] :=
  handleMessage_generic_error_no_delete sampleWorker deleteOk failHandler msgA
    "boom" rfl

/-- C4: when the cancellation signal has fired by the top of iteration
`k`, the loop logs the stop message and returns at once: the remaining
trace is exactly that one log line, and in particular no further receive
call is issued. -/
theorem startLoop_ctx_done_no_receive
    (w : Worker) (env : Env) (h : Handler) (fuel k : Nat)
    (hc : env.ctxDone k = true) :
    w.startLoop env h (fuel + 1) k =
      [Event.logPrintln "worker: Stopping polling because a context kill signal was sent"] ∧
    (w.startLoop env h (fuel + 1) k).filterMap Event.receiveParamsOf = [] := by
  have h1 : w.startLoop env h (fuel + 1) k =
      [Event.logPrintln "worker: Stopping polling because a context kill signal was sent"] := by
    unfold Worker.startLoop
    rw [hc]
    rfl
  exact ⟨h1, by rw [h1]; rfl⟩

/-- Witness for C4 in an environment whose signal has fired at iteration 0. -/
theorem startLoop_ctx_done_no_receive_witness :
    sampleWorker.startLoop doneEnv okHandler (2 + 1) 0 =
      [Event.logPrintln "worker: Stopping polling because a context kill signal was sent"] ∧
    (sampleWorker.startLoop doneEnv okHandler (2 + 1) 0).filterMap
        Event.receiveParamsOf = [] :=
  startLoop_ctx_done_no_receive sampleWorker doneEnv okHandler 2 0 rfl

/-- C5: when the receive call of iteration `k` returns a transport error,
the iteration contributes exactly the poll-start debug line, the receive
call and the logged error, and the loop goes straight on to iteration
`k + 1`; none of those events is a delete call, so no dispatch happened. -/
theorem startLoop_receive_error_continues
    (w : Worker) (env : Env) (h : Handler) (fuel k : Nat) (e : String)
    (hc : env.ctxDone k = false) (he : env.receive k = .err e) :
    w.startLoop env h (fuel + 1) k =
      Event.logDebug "worker: Start Polling" ::
      Event.receiveCall w.receiveParams ::
      Event.logPrintln e :: w.startLoop env h fuel (k + 1) ∧
    [Event.logDebug "worker: Start Polling", Event.receiveCall w.receiveParams,
      Event.logPrintln e].filterMap Event.deleteParams = [] := by
  constructor
  · simp [Worker.startLoop, hc, he]
  · rfl

/-- Witness for C5 in an environment whose receive call fails at iteration 0. -/
theorem startLoop_receive_error_continues_witness :
    sampleWorker.startLoop errEnv okHandler (1 + 1) 0 =
      Event.logDebug "worker: Start Polling" ::
      Event.receiveCall sampleWorker.receiveParams ::
      Event.logPrintln "network down" :: sampleWorker.startLoop errEnv okHandler 1 (0 + 1) ∧
    [Event.logDebug "worker: Start Polling",
      Event.receiveCall sampleWorker.receiveParams,
      Event.logPrintln "network down"].filterMap Event.deleteParams = [] :=
  startLoop_receive_error_continues sampleWorker errEnv okHandler 1 0 "network down"
    rfl rfl

/-- When the handler succeeds on `m`, the goroutine for `m` issues
exactly one delete call, for `m`'s receipt handle (whether or not the
delete call itself succeeds). -/
theorem runMessage_success_deletes
    (w : Worker) (dr : DeleteBehavior) (h : Handler) (m : Message)
    (hm : h m = none) :
    (w.runMessage dr h m).filterMap Event.deleteParams =
      [{ queueUrl := w.Config.QueueURL, receiptHandle := m.receiptHandle }] := by
  unfold Worker.runMessage Worker.handleMessage
  rw [hm]
  rcases hd : dr { queueUrl := w.Config.QueueURL, receiptHandle := m.receiptHandle }
    with _ | derr <;> simp [hd, Event.deleteParams]

/-- The delete calls of a dispatched batch on which every handler
succeeds are exactly one per message, carrying that message's receipt
handle. -/
theorem dispatch_success_deletes
    (w : Worker) (dr : DeleteBehavior) (h : Handler) :
    ∀ messages : List Message, (∀ m ∈ messages, h m = none) →
      ((messages.map (w.runMessage dr h)).flatten).filterMap Event.deleteParams =
        messages.map (fun m =>
          ({ queueUrl := w.Config.QueueURL,
             receiptHandle := m.receiptHandle } : DeleteMessageInput)) := by
  intro messages hok
  induction messages with
  | nil => rfl
  | cons m ms ih =>
      simp only [List.map_cons, List.flatten_cons, List.filterMap_append]
      rw [runMessage_success_deletes w dr h m (hok m (by simp)),
        ih (fun x hx => hok x (by simp [hx]))]
      rfl

/-- Under the race-free schedule only (goroutine `j` observes message
`j`): when every handler of a batch succeeds, the dispatch issues one
delete call per message, carrying that message's receipt handle.  This
is what the dispatch loop achieves when no goroutine's pointer read
races with a later loop write; `runRacy_duplicate_deletes` shows other
legal schedules break it. -/
theorem run_all_success_deletes_each_message
    (w : Worker) (dr : DeleteBehavior) (h : Handler) (messages : List Message)
    (_hlen : 1 ≤ messages.length) (hok : ∀ m ∈ messages, h m = none) :
    (w.run dr h messages).filterMap Event.deleteParams =
      messages.map (fun m =>
        ({ queueUrl := w.Config.QueueURL,
           receiptHandle := m.receiptHandle } : DeleteMessageInput)) := by
  unfold Worker.run
  rw [List.filterMap_cons]
  exact dispatch_success_deletes w dr h messages hok

/-- Witness for the race-free-schedule result at a concrete two-message
batch whose handler always succeeds. -/
theorem run_all_success_deletes_each_message_witness :
    (sampleWorker.run deleteOk okHandler [msgA, msgB]).filterMap Event.deleteParams =
      [msgA, msgB].map (fun m =>
        ({ queueUrl := sampleWorker.Config.QueueURL,
           receiptHandle := m.receiptHandle } : DeleteMessageInput)) :=
  run_all_success_deletes_each_message sampleWorker deleteOk okHandler [msgA, msgB]
    (by decide) (fun m _ => rfl)

/-- Mapping a function over positions `0, …, length − 1` read back with
`getD` is mapping it over the list itself. -/
theorem map_getD_range {α β : Type} (f : α → β) (d : α) :
    ∀ l : List α, (List.range l.length).map (fun j => f (l.getD j d)) = l.map f := by
  intro l
  induction l with
  | nil => rfl
  | cons a l ih =>
      rw [List.length_cons, List.range_succ_eq_map, List.map_cons, List.map_map]
      have hcomp : ((fun j => f ((a :: l).getD j d)) ∘ Nat.succ)
          = fun j => f (l.getD j d) := by
        funext j
        simp [List.getD_cons_succ]
      rw [hcomp, ih]
      simp [List.getD_cons_zero]

/-- `Worker.run` is `Worker.runRacy` at the identity schedule: the
behaviour in which every goroutine dereferences the shared range
variable at its own launch iteration, before the loop overwrites it. -/
theorem runRacy_id_eq_run
    (w : Worker) (dr : DeleteBehavior) (h : Handler) (messages : List Message) :
    w.runRacy dr h messages (fun j => j) = w.run dr h messages := by
  unfold Worker.runRacy Worker.run
  rw [map_getD_range (w.runMessage dr h) ⟨none, none⟩ messages]

/-- C1 fails on the code: the dispatch loop passes `&i` of its single
shared range variable to every goroutine, so under the legal schedule
`readLastSched` — both goroutines of the batch `[msgA, msgB]`
dereferencing the pointer at the final loop iteration (launch iteration
`j` allows any read iteration between `j` and 1, and `0 ≤ 1 ≤ 1`) —
every handler succeeds yet the dispatch issues two delete calls for
`msgB`'s receipt handle and none for `msgA`'s, instead of one delete
call per distinct receipt token. -/
theorem runRacy_duplicate_deletes :
    (0 ≤ readLastSched 0 ∧ readLastSched 0 < 2 ∧
      1 ≤ readLastSched 1 ∧ readLastSched 1 < 2) ∧
    (sampleWorker.runRacy deleteOk okHandler [msgA, msgB] readLastSched).filterMap
        Event.deleteParams =
      [{ queueUrl := sampleWorker.Config.QueueURL, receiptHandle := msgB.receiptHandle },
       { queueUrl := sampleWorker.Config.QueueURL, receiptHandle := msgB.receiptHandle }] ∧
    (sampleWorker.runRacy deleteOk okHandler [msgA, msgB] readLastSched).filterMap
        Event.deleteParams ≠
      [msgA, msgB].map (fun m =>
        ({ queueUrl := sampleWorker.Config.QueueURL,
           receiptHandle := m.receiptHandle } : DeleteMessageInput)) :=
  ⟨by decide, by decide, by decide⟩

/-- No event produced by the goroutine of a single message is a receive
call: it only ever deletes and logs. -/
theorem runMessage_no_receiveCall
    (w : Worker) (dr : DeleteBehavior) (h : Handler) (m : Message) :
    ∀ ev ∈ w.runMessage dr h m, ev.receiveParamsOf = none := by
  rcases hh : h m with _ | (e | s) <;>
    rcases hd : dr { queueUrl := w.Config.QueueURL, receiptHandle := m.receiptHandle }
      with _ | derr <;>
    simp [Worker.runMessage, Worker.handleMessage, hh, hd, Event.receiveParamsOf]

/-- No event produced by dispatching a batch is a receive call. -/
theorem run_no_receiveCall
    (w : Worker) (dr : DeleteBehavior) (h : Handler) (messages : List Message) :
    ∀ ev ∈ w.run dr h messages, ev.receiveParamsOf = none := by
  intro ev hev
  unfold Worker.run at hev
  rw [List.mem_cons] at hev
  rcases hev with rfl | hev
  · rfl
  · rw [List.mem_flatten] at hev
    rcases hev with ⟨l, hl, hevl⟩
    rw [List.mem_map] at hl
    rcases hl with ⟨m, _, rfl⟩
    exact runMessage_no_receiveCall w dr h m ev hevl

/-- C9: every receive call the poll loop ever issues carries exactly the
parameters built from the worker's config: the resolved queue URL, the
configured batch size as the maximum number of messages, all attribute
names, and the configured long-poll wait. -/
theorem startLoop_receive_params_fixed
    (w : Worker) (env : Env) (h : Handler) (fuel k : Nat) (p : ReceiveMessageInput)
    (hmem : Event.receiveCall p ∈ w.startLoop env h fuel k) :
    p = w.receiveParams := by
  induction fuel generalizing k with
  | zero => simp [Worker.startLoop] at hmem
  | succ n ih =>
      rw [Worker.startLoop] at hmem
      by_cases hc : env.ctxDone k
      · simp [hc] at hmem
      · rw [if_neg (by simp [hc])] at hmem
        rcases hr : env.receive k with e | msgs <;> rw [hr] at hmem <;>
          simp at hmem
        · rcases hmem with h1 | h1
          · exact h1
          · exact ih (k + 1) h1
        · rcases hmem with h1 | h1 | h1
          · exact h1
          · rcases h1 with ⟨hpos, h1⟩
            have := run_no_receiveCall w env.deleteResult h msgs _ h1
            simp [Event.receiveParamsOf] at this
          · exact ih (k + 1) h1

/-- Witness for C9: a concrete trace containing a receive call. -/
theorem startLoop_receive_params_fixed_witness :
    sampleWorker.receiveParams = sampleWorker.receiveParams :=
  startLoop_receive_params_fixed sampleWorker errEnv okHandler 1 0
    sampleWorker.receiveParams (by decide)

end SqsPoller
